import Mathlib

/-!
Verification development for the expense-tracker backend.

The controllers are shallowly embedded: JavaScript numbers are modelled as
rationals, the MongoDB query/aggregation calls are modelled as folds and
filters over explicit record lists, and each HTTP handler body becomes a
pure function from its (already queried) inputs to the response payload it
computes.  Display-only string interpolation of numbers (toFixed) is not
modelled; insight records instead carry their numeric payload in a
rational field.
-/

namespace ExpenseTracker

/-- jsRound models JavaScript Math.round: round half toward positive
infinity, which on exact rationals is the floor of x + 1/2. -/
def jsRound (q : ℚ) : ℤ := ⌊q + 1 / 2⌋

/-- round2 models the Math.round(x * 100) / 100 idiom used throughout the
controllers to round to two decimal places. -/
def round2 (q : ℚ) : ℚ := (jsRound (q * 100) : ℚ) / 100

/-- Expense record, from the mongoose expense schema: owner, description,
amount and date (the date is kept at day granularity, split into year,
month (1 to 12) and day fields, which is all the aggregation code
inspects). -/
structure Expense where
  user : ℕ
  description : String
  amount : ℚ
  category : String
  year : ℕ
  month : ℕ
  day : ℕ
  deriving DecidableEq

/-- Budget record, from the mongoose budget schema (id stands for the
Mongo object id). -/
structure Budget where
  id : ℕ
  user : ℕ
  category : String
  amount : ℚ
  month : ℕ
  year : ℕ
  isActive : Bool
  notes : String
  deriving DecidableEq

/-- budgetStatus is the status ladder of getBudgets (budgetController):
starting from within_budget, exceeded at 100 or more, else warning at 90
or more, else caution at 75 or more. -/
def budgetStatus (percentageUsed : ℚ) : String :=
  if percentageUsed ≥ 100 then "exceeded"
  else if percentageUsed ≥ 90 then "warning"
  else if percentageUsed ≥ 75 then "caution"
  else "within_budget"

/-- dashStatus is the visual indicator status ladder of getBudgetDashboard:
danger at 100 or more, else warning at 90 or more, else caution at 75 or
more, else success. -/
def dashStatus (percentageUsed : ℚ) : String :=
  if percentageUsed ≥ 100 then "danger"
  else if percentageUsed ≥ 90 then "warning"
  else if percentageUsed ≥ 75 then "caution"
  else "success"

/-- dashStatusMessage mirrors the statusMessage assignments next to
dashStatus in getBudgetDashboard. -/
def dashStatusMessage (percentageUsed : ℚ) : String :=
  if percentageUsed ≥ 100 then "Budget exceeded"
  else if percentageUsed ≥ 90 then "Budget almost exceeded"
  else if percentageUsed ≥ 75 then "Approaching budget limit"
  else "Within budget"

/-- dashAlertLevel mirrors the alertLevel assignments next to dashStatus in
getBudgetDashboard. -/
def dashAlertLevel (percentageUsed : ℚ) : String :=
  if percentageUsed ≥ 100 then "high"
  else if percentageUsed ≥ 90 then "medium"
  else if percentageUsed ≥ 75 then "low"
  else "none"

/-- dashColor mirrors the nested conditional expression choosing the display
color from the status string in getBudgetDashboard. -/
def dashColor (status : String) : String :=
  if status == "success" then "#10B981"
  else if status == "caution" then "#F59E0B"
  else if status == "warning" then "#EF4444"
  else "#DC2626"

/-- matchesBudget is the $match stage of the per-budget aggregate in
getBudgets: same user, the budget's category, and a date inside the
budget's month/year window (the window spans the whole calendar month, so
at day granularity it is exactly year and month equality). -/
def matchesBudget (b : Budget) (e : Expense) : Bool :=
  e.user == b.user && e.category == b.category && e.year == b.year && e.month == b.month

/-- totalSpentFor is the $sum of amounts of the matching expenses
(0 when the aggregate returns no group). -/
def totalSpentFor (b : Budget) (es : List Expense) : ℚ :=
  ((es.filter (matchesBudget b)).map (fun e => e.amount)).sum

/-- percentageUsedFor is the raw percentage used of a budget before
rounding: totalSpent / amount * 100 when the amount is positive, else 0. -/
def percentageUsedFor (b : Budget) (es : List Expense) : ℚ :=
  if 0 < b.amount then totalSpentFor b es / b.amount * 100 else 0

/-- Spending block of one budget comparison as returned by getBudgets
(formatted display strings elided). -/
structure BudgetSpending where
  totalSpent : ℚ
  expenseCount : ℕ
  remainingBudget : ℚ
  percentageUsed : ℚ
  status : String
  isOverBudget : Bool
  deriving DecidableEq

/-- compareBudget is the body of the per-budget mapper inside getBudgets:
aggregate the matching expenses, then derive remaining budget, rounded
percentage used, status tier (from the unrounded percentage) and the
strict over-budget flag. -/
def compareBudget (b : Budget) (es : List Expense) : BudgetSpending :=
  let totalSpent := totalSpentFor b es
  let percentageUsed := percentageUsedFor b es
  { totalSpent := totalSpent
    expenseCount := (es.filter (matchesBudget b)).length
    remainingBudget := b.amount - totalSpent
    percentageUsed := round2 percentageUsed
    status := budgetStatus percentageUsed
    isOverBudget := decide (b.amount < totalSpent) }

/-- getBudgetsComparisons is the budgets.map of getBudgets, pairing each
budget with its independently computed spending block. -/
def getBudgetsComparisons (bs : List Budget) (es : List Expense) :
    List (Budget × BudgetSpending) :=
  bs.map (fun b => (b, compareBudget b es))

/-- Summary block of the getBudgets response. -/
structure BudgetsSummary where
  totalBudgets : ℕ
  totalBudgetAmount : ℚ
  totalSpent : ℚ
  budgetsExceeded : ℕ
  budgetsInWarning : ℕ
  overallPercentageUsed : ℚ
  deriving DecidableEq

/-- getBudgetsSummary is the summary computation at the end of getBudgets:
reduce over budget amounts and per-comparison totals, count comparisons
flagged isOverBudget, count comparisons whose status is the warning
string, and round the overall percentage. -/
def getBudgetsSummary (bs : List Budget) (es : List Expense) : BudgetsSummary :=
  let comps := getBudgetsComparisons bs es
  let totalBudgetAmount := (bs.map (fun b => b.amount)).sum
  let totalSpent := (comps.map (fun c => c.2.totalSpent)).sum
  { totalBudgets := bs.length
    totalBudgetAmount := totalBudgetAmount
    totalSpent := totalSpent
    budgetsExceeded := (comps.filter (fun c => c.2.isOverBudget)).length
    budgetsInWarning := (comps.filter (fun c => c.2.status == "warning")).length
    overallPercentageUsed :=
      if 0 < totalBudgetAmount then
        (jsRound (totalSpent / totalBudgetAmount * 10000) : ℚ) / 100
      else 0 }

/-- dashTotalSpentFor is the expenseMap lookup of getBudgetDashboard: the
dashboard groups the period's expenses by category once and looks the
budget's category up, which sums exactly the amounts of that category in
the supplied period expense list (0 for an absent group). -/
def dashTotalSpentFor (b : Budget) (es : List Expense) : ℚ :=
  ((es.filter (fun e => e.category == b.category)).map (fun e => e.amount)).sum

/-- dashPercentageUsedFor is the raw percentage used in the dashboard item
before rounding. -/
def dashPercentageUsedFor (b : Budget) (es : List Expense) : ℚ :=
  if 0 < b.amount then dashTotalSpentFor b es / b.amount * 100 else 0

/-- Spending block of a dashboard item (formatted strings elided). -/
structure DashSpending where
  totalSpent : ℚ
  remainingBudget : ℚ
  percentageUsed : ℚ
  expenseCount : ℕ
  deriving DecidableEq

/-- Visual indicator block of a dashboard item. -/
structure VisualIndicator where
  status : String
  statusMessage : String
  alertLevel : String
  progressBarWidth : ℚ
  color : String
  deriving DecidableEq

/-- Dashboard item: a budget joined with its spending and visual
indicator. -/
structure DashItem where
  budget : Budget
  spending : DashSpending
  visualIndicator : VisualIndicator
  deriving DecidableEq

/-- dashboardCompare is the body of the budgets.map inside
getBudgetDashboard, computing one dashboard item from one budget. The
expense list parameter is the period expense query result (already
restricted to the user and the period by the database query). -/
def dashboardCompare (b : Budget) (es : List Expense) : DashItem :=
  let totalSpent := dashTotalSpentFor b es
  let percentageUsed := dashPercentageUsedFor b es
  let status := dashStatus percentageUsed
  { budget := b
    spending :=
      { totalSpent := totalSpent
        remainingBudget := b.amount - totalSpent
        percentageUsed := round2 percentageUsed
        expenseCount := (es.filter (fun e => e.category == b.category)).length }
    visualIndicator :=
      { status := status
        statusMessage := dashStatusMessage percentageUsed
        alertLevel := dashAlertLevel percentageUsed
        progressBarWidth := min percentageUsed 100
        color := dashColor status } }

/-- getDashboardData is the dashboardData map of getBudgetDashboard. -/
def getDashboardData (bs : List Budget) (es : List Expense) : List DashItem :=
  bs.map (fun b => dashboardCompare b es)

/-- Summary block of the getBudgetDashboard response. -/
structure DashSummary where
  totalBudgets : ℕ
  totalBudgetAmount : ℚ
  totalSpent : ℚ
  totalRemaining : ℚ
  overallPercentage : ℚ
  budgetsExceeded : ℕ
  budgetsInWarning : ℕ
  deriving DecidableEq

/-- getDashboardSummary is the overall summary computation at the end of
getBudgetDashboard: reduce over budget amounts and item totals, then count
items with danger status and items with warning status. -/
def getDashboardSummary (bs : List Budget) (es : List Expense) : DashSummary :=
  let items := getDashboardData bs es
  let totalBudgetAmount := (bs.map (fun b => b.amount)).sum
  let totalSpent := (items.map (fun i => i.spending.totalSpent)).sum
  let overallPercentage := if 0 < totalBudgetAmount then totalSpent / totalBudgetAmount * 100 else 0
  { totalBudgets := bs.length
    totalBudgetAmount := totalBudgetAmount
    totalSpent := totalSpent
    totalRemaining := totalBudgetAmount - totalSpent
    overallPercentage := round2 overallPercentage
    budgetsExceeded := (items.filter (fun i => i.visualIndicator.status == "danger")).length
    budgetsInWarning := (items.filter (fun i => i.visualIndicator.status == "warning")).length }

/-- Pagination block of the getExpenses response (expenseController). -/
structure Pagination where
  currentPage : ℕ
  totalPages : ℕ
  totalExpenses : ℕ
  hasNext : Bool
  hasPrev : Bool
  limit : ℕ
  deriving DecidableEq

/-- getExpensesPagination is the pagination computation of getExpenses:
skip = (page - 1) * limit, the returned page is the filtered list after
skip and limit (modelling the database skip/limit), totalPages is the
ceiling of total / limit, hasNext compares skip plus the returned count
with the total, and hasPrev holds for pages after the first. -/
def getExpensesPagination (matching : List Expense) (page limit : ℕ) : Pagination :=
  let skip := (page - 1) * limit
  let pageItems := (matching.drop skip).take limit
  let total := matching.length
  { currentPage := page
    totalPages := (⌈(total : ℚ) / (limit : ℚ)⌉).toNat
    totalExpenses := total
    hasNext := decide (skip + pageItems.length < total)
    hasPrev := decide (1 < page)
    limit := limit }

/-- isLeapYear follows the Gregorian rule used by the JavaScript Date
object. -/
def isLeapYear (y : ℕ) : Bool :=
  (y % 4 == 0 && y % 100 != 0) || y % 400 == 0

/-- daysInMonth models new Date(year, month, 0).getDate(): the number of
days of calendar month m (1 to 12) in year y. -/
def daysInMonth (y m : ℕ) : ℕ :=
  if m == 2 then (if isLeapYear y then 29 else 28)
  else if m == 4 || m == 6 || m == 9 || m == 11 then 30
  else 31

/-- Row of the category breakdown aggregate (group by category with summed
amount, count and average). -/
structure CatStat where
  catId : String
  totalAmount : ℚ
  count : ℕ
  avgAmount : ℚ
  deriving DecidableEq

/-- insertDescBy inserts an element into a list sorted descending by the
key f. -/
def insertDescBy (f : α → ℚ) (x : α) : List α → List α
  | [] => [x]
  | y :: ys => if f y ≤ f x then x :: y :: ys else y :: insertDescBy f x ys

/-- sortDescBy sorts a list descending by the key f (models the database
sort and the Array.sort comparator used for top expenses). -/
def sortDescBy (f : α → ℚ) : List α → List α
  | [] => []
  | x :: xs => insertDescBy f x (sortDescBy f xs)

/-- distinctCategories lists the categories occurring in an expense list,
first occurrence first. -/
def distinctCategories (es : List Expense) : List String :=
  es.foldl (fun acc e => if acc.contains e.category then acc else acc ++ [e.category]) []

/-- categoryBreakdownOf is the category breakdown aggregate of
getMonthlyExpenseSummary: group the month's expenses by category,
computing total, count and average per group, sorted by descending
total. -/
def categoryBreakdownOf (es : List Expense) : List CatStat :=
  sortDescBy (fun c => c.totalAmount)
    ((distinctCategories es).map (fun c =>
      let matching := es.filter (fun e => e.category == c)
      let total := (matching.map (fun e => e.amount)).sum
      { catId := c
        totalAmount := total
        count := matching.length
        avgAmount := if 0 < matching.length then total / (matching.length : ℚ) else 0 }))

/-- Insight record produced by generateSpendingInsights. The message and
the display strings interpolate numbers with toFixed; that formatting is
not modelled, so the record carries its numeric payload in the value
field. -/
structure Insight where
  itype : String
  level : String
  title : String
  value : ℚ
  deriving DecidableEq

/-- Input bundle handed by getMonthlyExpenseSummary to
generateSpendingInsights. -/
structure InsightData where
  totalSpending : ℚ
  averagePerDay : ℚ
  categoryBreakdown : List CatStat
  monthOverMonthChange : ℚ
  daysInMonth : ℕ
  isCurrentMonth : Bool
  currentDay : ℕ
  topExpenses : List Expense
  deriving DecidableEq

/-- generateSpendingInsights is a direct transcription of the helper of
the same name in the expense controller: an empty list accumulates, in
order, the trend block, the top category block, the projection block, the
large single expense block and the concentration block, each pushed only
when its own condition holds. -/
def generateSpendingInsights (d : InsightData) : List Insight :=
  let insights : List Insight := []
  let insights :=
    if |d.monthOverMonthChange| > 10 then
      insights ++ [{ itype := "trend"
                     level := if |d.monthOverMonthChange| > 25 then "warning" else "info"
                     title := "Monthly Spending " ++
                       (if d.monthOverMonthChange > 0 then "increased" else "decreased")
                     value := d.monthOverMonthChange }]
    else insights
  let insights :=
    match d.categoryBreakdown with
    | [] => insights
    | topCategory :: _ =>
      insights ++ [{ itype := "category"
                     level := if topCategory.totalAmount / d.totalSpending * 100 > 40
                              then "warning" else "info"
                     title := "Top Spending Category"
                     value := topCategory.totalAmount }]
  let insights :=
    if d.isCurrentMonth then
      insights ++ [{ itype := "projection"
                     level := "info"
                     title := "Monthly Projection"
                     value := d.averagePerDay * (d.daysInMonth : ℚ) }]
    else insights
  let insights :=
    match d.topExpenses with
    | [] => insights
    | highestExpense :: _ =>
      if highestExpense.amount / d.totalSpending * 100 > 15 then
        insights ++ [{ itype := "expense"
                       level := if highestExpense.amount / d.totalSpending * 100 > 25
                                then "warning" else "caution"
                       title := "Large Single Expense"
                       value := highestExpense.amount }]
      else insights
  let insights :=
    if 3 ≤ d.categoryBreakdown.length then
      let topThreePercentage :=
        ((d.categoryBreakdown.take 3).map (fun c => c.totalAmount / d.totalSpending * 100)).sum
      if topThreePercentage > 80 then
        insights ++ [{ itype := "distribution"
                       level := "info"
                       title := "Concentrated Spending"
                       value := topThreePercentage }]
      else insights
    else insights
  insights

/-- trendRule isolates the first push block of generateSpendingInsights
(the month over month trend). -/
def trendRule (d : InsightData) : List Insight :=
  if |d.monthOverMonthChange| > 10 then
    [{ itype := "trend"
       level := if |d.monthOverMonthChange| > 25 then "warning" else "info"
       title := "Monthly Spending " ++
         (if d.monthOverMonthChange > 0 then "increased" else "decreased")
       value := d.monthOverMonthChange }]
  else []

/-- categoryRule isolates the second push block of
generateSpendingInsights (the top spending category). -/
def categoryRule (d : InsightData) : List Insight :=
  match d.categoryBreakdown with
  | [] => []
  | topCategory :: _ =>
    [{ itype := "category"
       level := if topCategory.totalAmount / d.totalSpending * 100 > 40 then "warning" else "info"
       title := "Top Spending Category"
       value := topCategory.totalAmount }]

/-- projectionRule isolates the third push block of
generateSpendingInsights (the current month projection). -/
def projectionRule (d : InsightData) : List Insight :=
  if d.isCurrentMonth then
    [{ itype := "projection"
       level := "info"
       title := "Monthly Projection"
       value := d.averagePerDay * (d.daysInMonth : ℚ) }]
  else []

/-- expenseRule isolates the fourth push block of generateSpendingInsights
(the large single expense). -/
def expenseRule (d : InsightData) : List Insight :=
  match d.topExpenses with
  | [] => []
  | highestExpense :: _ =>
    if highestExpense.amount / d.totalSpending * 100 > 15 then
      [{ itype := "expense"
         level := if highestExpense.amount / d.totalSpending * 100 > 25 then "warning" else "caution"
         title := "Large Single Expense"
         value := highestExpense.amount }]
    else []

/-- distributionRule isolates the fifth push block of
generateSpendingInsights (the concentration of the top three
categories). -/
def distributionRule (d : InsightData) : List Insight :=
  if 3 ≤ d.categoryBreakdown.length then
    let topThreePercentage :=
      ((d.categoryBreakdown.take 3).map (fun c => c.totalAmount / d.totalSpending * 100)).sum
    if topThreePercentage > 80 then
      [{ itype := "distribution"
         level := "info"
         title := "Concentrated Spending"
         value := topThreePercentage }]
    else []
  else []

/-- monthOverMonthChange as computed in getMonthlyExpenseSummary: the
percentage change against the previous month total, 0 when that total is
not positive. -/
def monthOverMonthChange (totalSpending prevMonthTotal : ℚ) : ℚ :=
  if 0 < prevMonthTotal then (totalSpending - prevMonthTotal) / prevMonthTotal * 100 else 0

/-- Summary portion of the getMonthlyExpenseSummary response needed by the
claims. -/
structure MonthlySummary where
  totalSpending : ℚ
  totalExpenses : ℕ
  averagePerExpense : ℚ
  averagePerDay : ℚ
  daysInMonth : ℕ
  daysTracked : ℕ
  categoryBreakdown : List CatStat
  topExpenses : List Expense
  monthOverMonthChange : ℚ
  insights : List Insight
  deriving DecidableEq

/-- getMonthlyExpenseSummary embeds the handler of the same name. The
month's expense query result, the previous month total aggregate and the
current date are parameters (they come from the database and the clock);
everything after them is the handler's own computation: totals, averages
(per day divided by the elapsed day for the current month, else by the
days of the month), category breakdown, top five expenses, month over
month change and the insight list. -/
def getMonthlyExpenseSummary (es : List Expense) (prevMonthTotal : ℚ)
    (targetMonth targetYear nowDay nowMonth nowYear : ℕ) : MonthlySummary :=
  let dim := daysInMonth targetYear targetMonth
  let currentDay := nowDay
  let isCurrentMonth := targetMonth == nowMonth && targetYear == nowYear
  let totalExpenses := es.length
  let totalSpending := (es.map (fun e => e.amount)).sum
  let averagePerExpense := if 0 < totalExpenses then totalSpending / (totalExpenses : ℚ) else 0
  let averagePerDay :=
    if isCurrentMonth then totalSpending / (currentDay : ℚ)
    else totalSpending / (dim : ℚ)
  let categoryBreakdown := categoryBreakdownOf es
  let topExpenses := (sortDescBy (fun e => e.amount) es).take 5
  let change := monthOverMonthChange totalSpending prevMonthTotal
  { totalSpending := totalSpending
    totalExpenses := totalExpenses
    averagePerExpense := averagePerExpense
    averagePerDay := averagePerDay
    daysInMonth := dim
    daysTracked := if isCurrentMonth then currentDay else dim
    categoryBreakdown := categoryBreakdown
    topExpenses := topExpenses
    monthOverMonthChange := round2 change
    insights := generateSpendingInsights
      { totalSpending := totalSpending
        averagePerDay := averagePerDay
        categoryBreakdown := categoryBreakdown
        monthOverMonthChange := change
        daysInMonth := dim
        isCurrentMonth := isCurrentMonth
        currentDay := currentDay
        topExpenses := topExpenses } }

/-- Budget collection state: the stored records plus the next fresh object
id. -/
structure Store where
  budgets : List Budget
  nextId : ℕ
  deriving DecidableEq

/-- sameTuple is the findOne filter of createOrUpdateBudget: user,
category, month and year all equal. -/
def sameTuple (u : ℕ) (c : String) (m y : ℕ) (b : Budget) : Bool :=
  b.user == u && b.category == c && b.month == m && b.year == y

/-- toLowerCase models the JavaScript String toLowerCase call applied to
the request category: lower each character (written over the character
list so that concrete instances reduce). -/
def toLowerCase (s : String) : String := ⟨s.data.map Char.toLower⟩

/-- Body of a validated budget create request (the handler reads category,
amount, month, year and notes from the request; it carries no active
flag). -/
structure CreateBudgetRequest where
  user : ℕ
  category : String
  amount : ℚ
  month : ℕ
  year : ℕ
  notes : String
  deriving DecidableEq

/-- applyCreateOrUpdate embeds the successful path of createOrUpdateBudget:
look the lowercased tuple up with findOne; when a record exists, update it
by id with the new amount and notes and isActive set to true
(findByIdAndUpdate); otherwise insert a new record, active by the schema
default. -/
def applyCreateOrUpdate (s : Store) (r : CreateBudgetRequest) : Store :=
  let c := toLowerCase r.category
  match s.budgets.find? (sameTuple r.user c r.month r.year) with
  | some existing =>
    { s with budgets := s.budgets.map (fun b =>
        if b.id == existing.id then
          { b with amount := r.amount, notes := r.notes, isActive := true }
        else b) }
  | none =>
    { budgets := s.budgets ++
        [{ id := s.nextId, user := r.user, category := c, amount := r.amount,
           month := r.month, year := r.year, isActive := true, notes := r.notes }]
      nextId := s.nextId + 1 }

/-- emptyStore is the initial, empty budget collection. -/
def emptyStore : Store := { budgets := [], nextId := 0 }

/-- applyRequests runs a sequence of budget create requests against the
empty store. -/
def applyRequests (rs : List CreateBudgetRequest) : Store :=
  rs.foldl applyCreateOrUpdate emptyStore

/-!
Concrete sample data used to instantiate theorems with hypotheses.  The
three dining expenses and the 80 dollar dining budget are the worked
example of the specification.
-/

/-- Sample expense: 20 dollars of dining in May 2024. -/
def eDining20 : Expense :=
  { user := 1, description := "lunch", amount := 20, category := "dining",
    year := 2024, month := 5, day := 3 }

/-- Sample expense: 30 dollars of dining in May 2024. -/
def eDining30 : Expense := { eDining20 with amount := 30, day := 10 }

/-- Sample expense: 50 dollars of dining in May 2024. -/
def eDining50 : Expense := { eDining20 with amount := 50, day := 20 }

/-- Sample dining expense list totalling 100. -/
def diningExpenses : List Expense := [eDining20, eDining30, eDining50]

/-- Sample budget: 80 dollars for dining in May 2024. -/
def bDining80 : Budget :=
  { id := 0, user := 1, category := "dining", amount := 80, month := 5,
    year := 2024, isActive := true, notes := "" }

/-- Sample budget: 100 dollars for dining in May 2024 (spending of exactly
100 puts it on the boundary between the exceeded tier and the strict
over-budget flag). -/
def bDining100 : Budget := { bDining80 with id := 1, amount := 100 }

/-- Sample create request for an 80 dollar dining budget in May 2024. -/
def rDining80 : CreateBudgetRequest :=
  { user := 1, category := "dining", amount := 80, month := 5, year := 2024,
    notes := "first" }

/-- Sample repeated create request for the same tuple with a new amount
and new notes. -/
def rDining120 : CreateBudgetRequest :=
  { rDining80 with amount := 120, notes := "second" }

/-- Sample store holding one soft-disabled dining budget for May 2024. -/
def storeInactive : Store :=
  { budgets := [{ id := 7, user := 1, category := "dining", amount := 80,
                  month := 5, year := 2024, isActive := false, notes := "old" }],
    nextId := 8 }

/-- Sample list of five expenses used for pagination instantiation. -/
def fiveExpenses : List Expense :=
  [eDining20, eDining30, eDining50, eDining20, eDining30]

/-- Sample insight generator input with a 15 percent month over month
change and nothing else triggering. -/
def dTrend15 : InsightData :=
  { totalSpending := 115, averagePerDay := 0, categoryBreakdown := [],
    monthOverMonthChange := 15, daysInMonth := 30, isCurrentMonth := false,
    currentDay := 1, topExpenses := [] }

/-!
Helper lemmas shared by the claim theorems.
-/

/-- Pushing a conditional append out of an accumulator step. -/
lemma ite_append_push (c : Prop) [Decidable c] (l m : List α) :
    (if c then l ++ m else l) = l ++ (if c then m else []) := by
  split <;> simp

/-- The sequential accumulation of generateSpendingInsights is the
concatenation, in rule order, of the five independent rule outputs. -/
lemma generateSpendingInsights_eq_append (d : InsightData) :
    generateSpendingInsights d =
      trendRule d ++ categoryRule d ++ projectionRule d ++ expenseRule d ++ distributionRule d := by
  rcases d with ⟨ts, apd, cb, mc, dim, icm, cd, te⟩
  simp only [generateSpendingInsights, trendRule, categoryRule, projectionRule, expenseRule,
    distributionRule]
  rcases cb with _ | ⟨t, tl⟩ <;> rcases te with _ | ⟨e, el⟩ <;>
    simp only [ite_append_push, List.nil_append, List.append_nil]

/-- Every insight emitted by the trend rule has the trend type tag. -/
lemma trendRule_itype (d : InsightData) : ∀ i ∈ trendRule d, i.itype = "trend" := by
  unfold trendRule; split <;> simp

/-- Every insight emitted by the category rule has the category type tag. -/
lemma categoryRule_itype (d : InsightData) : ∀ i ∈ categoryRule d, i.itype = "category" := by
  unfold categoryRule; split <;> simp

/-- Every insight emitted by the projection rule has the projection type
tag. -/
lemma projectionRule_itype (d : InsightData) : ∀ i ∈ projectionRule d, i.itype = "projection" := by
  unfold projectionRule; split <;> simp

/-- Every insight emitted by the large expense rule has the expense type
tag. -/
lemma expenseRule_itype (d : InsightData) : ∀ i ∈ expenseRule d, i.itype = "expense" := by
  unfold expenseRule; split
  · simp
  · split <;> simp

/-- Every insight emitted by the distribution rule has the distribution
type tag. -/
lemma distributionRule_itype (d : InsightData) :
    ∀ i ∈ distributionRule d, i.itype = "distribution" := by
  unfold distributionRule; split
  · dsimp only; split <;> simp
  · simp

/-- The trend rule emits nothing exactly when the absolute month over
month change does not pass 10 percent. -/
lemma trendRule_eq_nil_iff (d : InsightData) :
    trendRule d = [] ↔ ¬ |d.monthOverMonthChange| > 10 := by
  unfold trendRule; split <;> simp_all

/-- The category rule emits nothing exactly when the breakdown is empty. -/
lemma categoryRule_eq_nil_iff (d : InsightData) :
    categoryRule d = [] ↔ d.categoryBreakdown = [] := by
  unfold categoryRule; split <;> simp_all

/-- The projection rule emits nothing exactly when the window is not the
current month. -/
lemma projectionRule_eq_nil_iff (d : InsightData) :
    projectionRule d = [] ↔ d.isCurrentMonth = false := by
  unfold projectionRule; split <;> simp_all

/-- The large expense rule emits nothing exactly when there is no top
expense whose share of total spending passes 15 percent. -/
lemma expenseRule_eq_nil_iff (d : InsightData) :
    expenseRule d = [] ↔
      ¬ ∃ e, d.topExpenses.head? = some e ∧ e.amount / d.totalSpending * 100 > 15 := by
  unfold expenseRule; split <;> simp_all

/-- The distribution rule emits nothing exactly when fewer than three
categories exist or the top three share does not pass 80 percent. -/
lemma distributionRule_eq_nil_iff (d : InsightData) :
    distributionRule d = [] ↔
      ¬ (3 ≤ d.categoryBreakdown.length ∧
         ((d.categoryBreakdown.take 3).map (fun c => c.totalAmount / d.totalSpending * 100)).sum > 80) := by
  unfold distributionRule; split <;> simp_all

/-- Each rule contributes at most one insight. -/
lemma rule_length_le_one (d : InsightData) :
    (trendRule d).length ≤ 1 ∧ (categoryRule d).length ≤ 1 ∧ (projectionRule d).length ≤ 1 ∧
      (expenseRule d).length ≤ 1 ∧ (distributionRule d).length ≤ 1 := by
  unfold trendRule categoryRule projectionRule expenseRule distributionRule
  refine ⟨?_, ?_, ?_, ?_, ?_⟩ <;> split <;> try simp
  all_goals split <;> simp

/-- Filtering a mapped list keeps as many elements as filtering the source
by the composed test. -/
lemma length_filter_map (f : α → β) (p : β → Bool) (l : List α) :
    ((l.map f).filter p).length = (l.filter (fun a => p (f a))).length := by
  induction l with
  | nil => rfl
  | cons x xs ih =>
    simp only [List.map_cons, List.filter_cons]
    by_cases h : p (f x) <;> simp [h, ih]

/-- The danger status of the dashboard ladder holds exactly at 100 percent
or more, as a boolean equation usable under a filter. -/
lemma dashStatus_beq_danger (p : ℚ) : (dashStatus p == "danger") = decide (100 ≤ p) := by
  unfold dashStatus
  split_ifs with h1 h2 h3 <;> simp_all

/-- For positive divisors, the rational ceiling of n / l is the rounded-up
natural division (n + l - 1) / l. -/
lemma ceil_cast_div_nat (n l : ℕ) (hl : 1 ≤ l) :
    ⌈(n : ℚ) / (l : ℚ)⌉ = (((n + l - 1) / l : ℕ) : ℤ) := by
  have hl0 : (0 : ℚ) < l := by exact_mod_cast hl
  set q := (n + l - 1) / l with hqdef
  set r := (n + l - 1) % l with hrdef
  have hdm : l * q + r = n + l - 1 := Nat.div_add_mod (n + l - 1) l
  have hmod : r < l := Nat.mod_lt _ (by omega)
  have hA : n ≤ l * q := by
    generalize hm : l * q = m at hdm
    omega
  have hB : l * q < n + l := by
    generalize hm : l * q = m at hdm
    omega
  rw [Int.ceil_eq_iff]
  push_cast
  constructor
  · rw [lt_div_iff hl0]
    have hBq : (l : ℚ) * q < n + l := by exact_mod_cast hB
    nlinarith [hBq]
  · rw [div_le_iff hl0]
    have hAq : (n : ℚ) ≤ l * q := by exact_mod_cast hA
    nlinarith [hAq]

/-- Updating the found record changes only its amount, notes and active
flag, never its identifying tuple. -/
lemma sameTuple_ite_update (u : ℕ) (c : String) (m y : ℕ) (ex : Budget) (a : ℚ)
    (ns : String) (b : Budget) :
    sameTuple u c m y
      (if b.id == ex.id then { b with amount := a, notes := ns, isActive := true } else b) =
      sameTuple u c m y b := by
  by_cases h : (b.id == ex.id) = true <;> simp [h, sameTuple]

/-- One createOrUpdateBudget request preserves the at-most-one-record-per-
tuple property of the store. -/
lemma tupleUnique_step (s : Store) (r : CreateBudgetRequest)
    (hs : ∀ u c m y, ((s.budgets.filter (sameTuple u c m y)).length ≤ 1)) :
    ∀ u c m y, (((applyCreateOrUpdate s r).budgets.filter (sameTuple u c m y)).length ≤ 1) := by
  intro u c m y
  simp only [applyCreateOrUpdate]
  cases hfind : s.budgets.find? (sameTuple r.user (toLowerCase r.category) r.month r.year) with
  | some ex =>
    simp only
    rw [length_filter_map]
    have hfun : (fun b : Budget => sameTuple u c m y
        (if b.id == ex.id then { b with amount := r.amount, notes := r.notes, isActive := true }
         else b)) = fun b => sameTuple u c m y b :=
      funext (fun b => sameTuple_ite_update u c m y ex r.amount r.notes b)
    rw [hfun]
    exact hs u c m y
  | none =>
    simp only
    rw [List.filter_append]
    by_cases hnew : sameTuple u c m y
        { id := s.nextId, user := r.user, category := toLowerCase r.category, amount := r.amount,
          month := r.month, year := r.year, isActive := true, notes := r.notes } = true
    · have hcomp : ((r.user = u ∧ toLowerCase r.category = c) ∧ r.month = m) ∧ r.year = y := by
        simpa [sameTuple, Bool.and_eq_true, beq_iff_eq] using hnew
      obtain ⟨⟨⟨h1, h2⟩, h3⟩, h4⟩ := hcomp
      subst h1 h2 h3 h4
      have hempty : s.budgets.filter
          (sameTuple r.user (toLowerCase r.category) r.month r.year) = [] := by
        rw [List.filter_eq_nil_iff]
        intro b hb
        have hnone := List.find?_eq_none.mp hfind b hb
        simpa using hnone
      rw [hempty]
      simp [hnew]
    · have hside : (List.filter (sameTuple u c m y)
          [{ id := s.nextId, user := r.user, category := toLowerCase r.category,
             amount := r.amount, month := r.month, year := r.year, isActive := true,
             notes := r.notes }]) = [] := by
        simp [List.filter_eq_nil_iff]
        simpa using hnew
      rw [hside]
      simpa using hs u c m y

/-- The at-most-one-record-per-tuple property is preserved along any
request sequence. -/
lemma tupleUnique_fold (rs : List CreateBudgetRequest) :
    ∀ s : Store, (∀ u c m y, ((s.budgets.filter (sameTuple u c m y)).length ≤ 1)) →
      ∀ u c m y,
        (((rs.foldl applyCreateOrUpdate s).budgets.filter (sameTuple u c m y)).length ≤ 1) := by
  induction rs with
  | nil => exact fun s hs => hs
  | cons r rest ih =>
    intro s hs
    exact ih _ (tupleUnique_step s r hs)

/-- From the empty store, any request sequence leaves at most one record
per tuple. -/
lemma tupleUnique_applyRequests (rs : List CreateBudgetRequest) (u : ℕ) (c : String) (m y : ℕ) :
    (((applyRequests rs).budgets.filter (sameTuple u c m y)).length ≤ 1) := by
  exact tupleUnique_fold rs emptyStore (by intro u c m y; simp [emptyStore]) u c m y

/-- When findOne locates an existing record for the request tuple, the
handler keeps the record count and the store contains the updated version
of the found record. -/
lemma applyCreateOrUpdate_found (s : Store) (r : CreateBudgetRequest) (ex : Budget)
    (hfind : s.budgets.find? (sameTuple r.user (toLowerCase r.category) r.month r.year)
      = some ex) :
    (applyCreateOrUpdate s r).budgets.length = s.budgets.length ∧
    { ex with amount := r.amount, notes := r.notes, isActive := true } ∈
      (applyCreateOrUpdate s r).budgets := by
  have hmem : ex ∈ s.budgets := List.mem_of_find?_eq_some hfind
  simp only [applyCreateOrUpdate]
  rw [hfind]
  simp only
  constructor
  · exact List.length_map s.budgets _
  · exact List.mem_map.mpr ⟨ex, hmem, by simp⟩

/-!
Claim theorems.
-/

/-- C2: for every budget comparison the status tier is a function of the
percentage used with lower closed boundaries: exceeded (dashboard danger)
holds exactly at 100 or more, warning exactly on [90, 100), caution
exactly on [75, 90), within_budget (dashboard success) exactly below 75;
in particular 100 gives exceeded and danger, 90 gives warning, 75 gives
caution, and 74.99 gives within_budget and success. -/
theorem statusTier_lower_closed (p : ℚ) :
    ((budgetStatus p = "exceeded" ↔ 100 ≤ p) ∧
     (budgetStatus p = "warning" ↔ 90 ≤ p ∧ p < 100) ∧
     (budgetStatus p = "caution" ↔ 75 ≤ p ∧ p < 90) ∧
     (budgetStatus p = "within_budget" ↔ p < 75)) ∧
    ((dashStatus p = "danger" ↔ 100 ≤ p) ∧
     (dashStatus p = "warning" ↔ 90 ≤ p ∧ p < 100) ∧
     (dashStatus p = "caution" ↔ 75 ≤ p ∧ p < 90) ∧
     (dashStatus p = "success" ↔ p < 75)) ∧
    (budgetStatus 100 = "exceeded" ∧ dashStatus 100 = "danger") ∧
    (budgetStatus 90 = "warning" ∧ dashStatus 90 = "warning") ∧
    (budgetStatus 75 = "caution" ∧ dashStatus 75 = "caution") ∧
    (budgetStatus (7499 / 100) = "within_budget" ∧ dashStatus (7499 / 100) = "success") := by
  refine ⟨?_, ?_, ?_, ?_, ?_, ?_⟩
  · unfold budgetStatus
    split_ifs with h1 h2 h3 <;> simp_all <;>
      first
        | (intros ; linarith)
        | (constructor <;> intros <;> linarith)
        | (rintro ⟨h4, h5⟩ ; linarith)
  · unfold dashStatus
    split_ifs with h1 h2 h3 <;> simp_all <;>
      first
        | (intros ; linarith)
        | (constructor <;> intros <;> linarith)
        | (rintro ⟨h4, h5⟩ ; linarith)
  · constructor <;> norm_num [budgetStatus, dashStatus]
  · constructor <;> norm_num [budgetStatus, dashStatus]
  · constructor <;> norm_num [budgetStatus, dashStatus]
  · constructor <;> norm_num [budgetStatus, dashStatus]

/-- C3: for every budget and list of expenses with non-negative amounts
(and a schema-conformant non-negative budget amount), in both the list
endpoint comparison and the dashboard comparison, totalSpent is the sum of
the included expense amounts, remaining is the budget amount minus
totalSpent, and the reported percentageUsed is totalSpent over the budget
amount times 100 rounded to two decimals, except that it is 0 when the
budget amount is 0. -/
theorem comparison_arithmetic (b : Budget) (es : List Expense)
    (hb : 0 ≤ b.amount) (hes : ∀ e ∈ es, 0 ≤ e.amount) :
    ((compareBudget b es).totalSpent =
        ((es.filter (matchesBudget b)).map (fun e => e.amount)).sum ∧
     (compareBudget b es).remainingBudget = b.amount - (compareBudget b es).totalSpent ∧
     (compareBudget b es).percentageUsed =
       (if b.amount = 0 then 0
        else round2 ((compareBudget b es).totalSpent / b.amount * 100))) ∧
    ((dashboardCompare b es).spending.totalSpent =
        ((es.filter (fun e => e.category == b.category)).map (fun e => e.amount)).sum ∧
     (dashboardCompare b es).spending.remainingBudget =
        b.amount - (dashboardCompare b es).spending.totalSpent ∧
     (dashboardCompare b es).spending.percentageUsed =
       (if b.amount = 0 then 0
        else round2 ((dashboardCompare b es).spending.totalSpent / b.amount * 100))) := by
  refine ⟨⟨rfl, rfl, ?_⟩, ⟨rfl, rfl, ?_⟩⟩
  · show round2 (percentageUsedFor b es) = _
    unfold percentageUsedFor
    rcases lt_or_eq_of_le hb with hpos | hzero
    · rw [if_pos hpos, if_neg (by linarith)]
      rfl
    · rw [if_neg (by rw [← hzero] ; exact lt_irrefl 0), if_pos hzero.symm]
      norm_num [round2, jsRound]
  · show round2 (dashPercentageUsedFor b es) = _
    unfold dashPercentageUsedFor
    rcases lt_or_eq_of_le hb with hpos | hzero
    · rw [if_pos hpos, if_neg (by linarith)]
      rfl
    · rw [if_neg (by rw [← hzero] ; exact lt_irrefl 0), if_pos hzero.symm]
      norm_num [round2, jsRound]

unseal Rat.add Rat.mul Rat.inv Rat.sub Rat.ofScientific in
/-- Witness for C3 at the specification's worked example: three dining
expenses of 20, 30 and 50 dollars against the 80 dollar dining budget. -/
theorem comparison_arithmetic_witness :
    (0 ≤ bDining80.amount ∧ ∀ e ∈ diningExpenses, 0 ≤ e.amount) ∧
    (((compareBudget bDining80 diningExpenses).totalSpent =
        ((diningExpenses.filter (matchesBudget bDining80)).map (fun e => e.amount)).sum ∧
      (compareBudget bDining80 diningExpenses).remainingBudget =
        bDining80.amount - (compareBudget bDining80 diningExpenses).totalSpent ∧
      (compareBudget bDining80 diningExpenses).percentageUsed =
        (if bDining80.amount = 0 then 0
         else round2 ((compareBudget bDining80 diningExpenses).totalSpent /
           bDining80.amount * 100))) ∧
     ((dashboardCompare bDining80 diningExpenses).spending.totalSpent =
        ((diningExpenses.filter (fun e => e.category == bDining80.category)).map
          (fun e => e.amount)).sum ∧
      (dashboardCompare bDining80 diningExpenses).spending.remainingBudget =
        bDining80.amount - (dashboardCompare bDining80 diningExpenses).spending.totalSpent ∧
      (dashboardCompare bDining80 diningExpenses).spending.percentageUsed =
        (if bDining80.amount = 0 then 0
         else round2 ((dashboardCompare bDining80 diningExpenses).spending.totalSpent /
           bDining80.amount * 100)))) :=
  ⟨⟨by decide, by decide⟩,
   comparison_arithmetic bDining80 diningExpenses (by decide) (by decide)⟩

/-- C4: the trend insight is emitted exactly when the absolute month over
month change passes 10 percent, its level is warning exactly above 25
percent and info otherwise, where the change is (current minus previous)
over previous times 100 and is 0 when the previous total is 0; in
particular previous 100 and current 115 give a change of 15. -/
theorem trendInsight_rule (cur prev : ℚ) (d : InsightData)
    (hprev : 0 ≤ prev) (hd : d.monthOverMonthChange = monthOverMonthChange cur prev) :
    (prev = 0 → monthOverMonthChange cur prev = 0) ∧
    (0 < prev → monthOverMonthChange cur prev = (cur - prev) / prev * 100) ∧
    ((∃ i ∈ generateSpendingInsights d, i.itype = "trend") ↔
      |monthOverMonthChange cur prev| > 10) ∧
    (∀ i ∈ generateSpendingInsights d, i.itype = "trend" →
      i.level = if |monthOverMonthChange cur prev| > 25 then "warning" else "info") ∧
    monthOverMonthChange 115 100 = 15 := by
  refine ⟨?_, ?_, ?_, ?_, ?_⟩
  · intro h
    simp [monthOverMonthChange, h]
  · intro h
    simp [monthOverMonthChange, h]
  · rw [← hd, generateSpendingInsights_eq_append]
    constructor
    · rintro ⟨i, hi, hit⟩
      simp only [List.mem_append] at hi
      rcases hi with ((((hi | hi) | hi) | hi) | hi)
      · by_contra hno
        rw [(trendRule_eq_nil_iff d).2 hno] at hi
        exact absurd hi (List.not_mem_nil i)
      · have h2 := categoryRule_itype d i hi
        rw [hit] at h2
        exact absurd h2 (by decide)
      · have h2 := projectionRule_itype d i hi
        rw [hit] at h2
        exact absurd h2 (by decide)
      · have h2 := expenseRule_itype d i hi
        rw [hit] at h2
        exact absurd h2 (by decide)
      · have h2 := distributionRule_itype d i hi
        rw [hit] at h2
        exact absurd h2 (by decide)
    · intro htrig
      rcases h : trendRule d with _ | ⟨i, rest⟩
      · rw [trendRule_eq_nil_iff] at h
        exact absurd htrig h
      · exact ⟨i, by simp [h], trendRule_itype d i (by simp [h])⟩
  · rw [← hd]
    intro i hi hit
    rw [generateSpendingInsights_eq_append] at hi
    simp only [List.mem_append] at hi
    rcases hi with ((((hi | hi) | hi) | hi) | hi)
    · unfold trendRule at hi
      split at hi
      · simp only [List.mem_singleton] at hi
        subst hi
        rfl
      · exact absurd hi (List.not_mem_nil i)
    · have h2 := categoryRule_itype d i hi
      rw [hit] at h2
      exact absurd h2 (by decide)
    · have h2 := projectionRule_itype d i hi
      rw [hit] at h2
      exact absurd h2 (by decide)
    · have h2 := expenseRule_itype d i hi
      rw [hit] at h2
      exact absurd h2 (by decide)
    · have h2 := distributionRule_itype d i hi
      rw [hit] at h2
      exact absurd h2 (by decide)
  · norm_num [monthOverMonthChange]

unseal Rat.add Rat.mul Rat.inv Rat.sub Rat.ofScientific in
/-- Witness for C4 at the specification's example figures: previous 100,
current 115, a 15 percent change, carried by a concrete insight input. -/
theorem trendInsight_rule_witness :
    (0 ≤ (100 : ℚ) ∧ dTrend15.monthOverMonthChange = monthOverMonthChange 115 100) ∧
    (((100 : ℚ) = 0 → monthOverMonthChange 115 100 = 0) ∧
     (0 < (100 : ℚ) → monthOverMonthChange 115 100 = (115 - 100) / 100 * 100) ∧
     ((∃ i ∈ generateSpendingInsights dTrend15, i.itype = "trend") ↔
       |monthOverMonthChange 115 100| > 10) ∧
     (∀ i ∈ generateSpendingInsights dTrend15, i.itype = "trend" →
       i.level = if |monthOverMonthChange 115 100| > 25 then "warning" else "info") ∧
     monthOverMonthChange 115 100 = 15) :=
  ⟨⟨by norm_num, by decide⟩,
   trendInsight_rule 115 100 dTrend15 (by norm_num) (by decide)⟩

/-- C8: the insight generator evaluates its five rules independently (each
rule output is a function of the input bundle alone), the produced list is
exactly the concatenation of the five rule outputs in rule order (trend,
top category, projection, large single expense, concentration), each rule
contributes at most one insight carrying its own type tag, and a rule
whose trigger fails contributes the empty list. -/
theorem insights_rule_order (d : InsightData) :
    generateSpendingInsights d =
      trendRule d ++ categoryRule d ++ projectionRule d ++ expenseRule d ++ distributionRule d ∧
    (trendRule d = [] ↔ ¬ |d.monthOverMonthChange| > 10) ∧
    (categoryRule d = [] ↔ d.categoryBreakdown = []) ∧
    (projectionRule d = [] ↔ d.isCurrentMonth = false) ∧
    (expenseRule d = [] ↔
      ¬ ∃ e, d.topExpenses.head? = some e ∧ e.amount / d.totalSpending * 100 > 15) ∧
    (distributionRule d = [] ↔
      ¬ (3 ≤ d.categoryBreakdown.length ∧
         ((d.categoryBreakdown.take 3).map
           (fun c => c.totalAmount / d.totalSpending * 100)).sum > 80)) ∧
    ((trendRule d).length ≤ 1 ∧ (categoryRule d).length ≤ 1 ∧ (projectionRule d).length ≤ 1 ∧
      (expenseRule d).length ≤ 1 ∧ (distributionRule d).length ≤ 1) ∧
    (∀ i ∈ trendRule d, i.itype = "trend") ∧
    (∀ i ∈ categoryRule d, i.itype = "category") ∧
    (∀ i ∈ projectionRule d, i.itype = "projection") ∧
    (∀ i ∈ expenseRule d, i.itype = "expense") ∧
    (∀ i ∈ distributionRule d, i.itype = "distribution") :=
  ⟨generateSpendingInsights_eq_append d, trendRule_eq_nil_iff d, categoryRule_eq_nil_iff d,
   projectionRule_eq_nil_iff d, expenseRule_eq_nil_iff d, distributionRule_eq_nil_iff d,
   rule_length_le_one d, trendRule_itype d, categoryRule_itype d, projectionRule_itype d,
   expenseRule_itype d, distributionRule_itype d⟩

unseal Rat.add Rat.mul Rat.inv Rat.sub Rat.ofScientific in
/-- Counterexample to C5 as stated: for an empty expense set in the
current month (May 2024 viewed on May 15 2024, previous month total 0)
the zero-valued summary parts hold, yet the insight list is not empty:
the projection rule fires for every current-month window. -/
theorem monthlySummary_empty_counterexample :
    (getMonthlyExpenseSummary [] 0 5 2024 15 5 2024).totalSpending = 0 ∧
    (getMonthlyExpenseSummary [] 0 5 2024 15 5 2024).totalExpenses = 0 ∧
    (getMonthlyExpenseSummary [] 0 5 2024 15 5 2024).averagePerDay = 0 ∧
    (getMonthlyExpenseSummary [] 0 5 2024 15 5 2024).categoryBreakdown = [] ∧
    (getMonthlyExpenseSummary [] 0 5 2024 15 5 2024).insights ≠ [] := by decide

/-- C5 amended: an empty expense set yields the zero-valued summary
(totalSpending 0, totalExpenses 0, averagePerDay 0, empty category
breakdown) and never an error, but the insight list is empty only when
the window is a past month and the previous month total is not positive:
a current-month window always emits the projection insight, and a
positive previous month total emits a minus 100 percent trend insight. -/
theorem monthlySummary_empty (prevTotal : ℚ) (tm ty nd nm ny : ℕ) :
    (getMonthlyExpenseSummary [] prevTotal tm ty nd nm ny).totalSpending = 0 ∧
    (getMonthlyExpenseSummary [] prevTotal tm ty nd nm ny).totalExpenses = 0 ∧
    (getMonthlyExpenseSummary [] prevTotal tm ty nd nm ny).averagePerDay = 0 ∧
    (getMonthlyExpenseSummary [] prevTotal tm ty nd nm ny).categoryBreakdown = [] ∧
    (getMonthlyExpenseSummary [] prevTotal tm ty nd nm ny).insights =
      (if 0 < prevTotal then
         [{ itype := "trend", level := "warning",
            title := "Monthly Spending decreased", value := -100 }]
       else []) ++
      (if tm = nm ∧ ty = ny then
         [{ itype := "projection", level := "info",
            title := "Monthly Projection", value := 0 }]
       else []) := by
  have h1 : categoryBreakdownOf ([] : List Expense) = [] := rfl
  have h2 : (sortDescBy (fun e : Expense => e.amount) []).take 5 = [] := rfl
  simp only [getMonthlyExpenseSummary, List.map_nil, List.sum_nil, List.length_nil, zero_div,
    ite_self, h1, h2]
  refine ⟨trivial, trivial, trivial, trivial, ?_⟩
  rw [generateSpendingInsights_eq_append]
  simp only [trendRule, categoryRule, projectionRule, expenseRule, distributionRule]
  simp only [List.append_nil, List.nil_append, zero_mul, Bool.and_eq_true, beq_iff_eq,
    List.length_nil]
  by_cases hp : 0 < prevTotal
  · have hmc : monthOverMonthChange 0 prevTotal = -100 := by
      unfold monthOverMonthChange
      rw [if_pos hp, zero_sub, neg_div, div_self (ne_of_gt hp)]
      norm_num
    rw [hmc, if_pos hp, if_pos (by norm_num : |(-100 : ℚ)| > 10),
      if_pos (by norm_num : |(-100 : ℚ)| > 25), if_neg (by norm_num : ¬ (-100 : ℚ) > 0)]
    norm_num
    rfl
  · have hmc : monthOverMonthChange 0 prevTotal = 0 := by
      unfold monthOverMonthChange
      rw [if_neg hp]
    rw [hmc, if_neg hp, if_neg (by norm_num : ¬ |(0 : ℚ)| > 10), List.nil_append]
    norm_num

unseal Rat.add Rat.mul Rat.inv Rat.sub Rat.ofScientific in
/-- Counterexample to C6 as stated: with spending exactly equal to the 100
dollar dining budget the status tier is exceeded (percentage used is
exactly 100), but the list endpoint summary counts budgetsExceeded with
the strict over-budget flag and reports 0, not the exceeded-tier count
of 1. -/
theorem budgetsSummary_counterexample :
    (getBudgetsSummary [bDining100] diningExpenses).budgetsExceeded = 0 ∧
    ((getBudgetsComparisons [bDining100] diningExpenses).filter
      (fun c => c.2.status == "exceeded")).length = 1 ∧
    (getBudgetsSummary [bDining100] diningExpenses).budgetsExceeded ≠
      ((getBudgetsComparisons [bDining100] diningExpenses).filter
        (fun c => c.2.status == "exceeded")).length := by decide

/-- C6 amended: each comparison is computed independently of the other
budgets in scope; in both endpoint summaries totalBudgetAmount is the sum
of the budget amounts and totalSpent the sum of the per-budget totals;
budgetsInWarning counts the budgets in the warning tier; but
budgetsExceeded counts, in the list endpoint, the budgets whose spending
strictly exceeds the budget amount (isOverBudget), which differs from the
exceeded tier when spending equals a positive budget amount exactly,
while the dashboard endpoint counts the danger tier (percentage used at
least 100). -/
theorem budgetsSummary_aggregates (bs : List Budget) (es : List Expense) :
    (∀ pre post b,
      getBudgetsComparisons (pre ++ b :: post) es =
        getBudgetsComparisons pre es ++
          (b, compareBudget b es) :: getBudgetsComparisons post es) ∧
    (getBudgetsSummary bs es).totalBudgetAmount = (bs.map (fun b => b.amount)).sum ∧
    (getBudgetsSummary bs es).totalSpent =
      (bs.map (fun b => (compareBudget b es).totalSpent)).sum ∧
    (getBudgetsSummary bs es).budgetsInWarning =
      (bs.filter (fun b => (compareBudget b es).status == "warning")).length ∧
    (getBudgetsSummary bs es).budgetsExceeded =
      (bs.filter (fun b => decide (b.amount < (compareBudget b es).totalSpent))).length ∧
    (getDashboardSummary bs es).totalBudgetAmount = (bs.map (fun b => b.amount)).sum ∧
    (getDashboardSummary bs es).totalSpent =
      (bs.map (fun b => (dashboardCompare b es).spending.totalSpent)).sum ∧
    (getDashboardSummary bs es).budgetsInWarning =
      (bs.filter (fun b =>
        (dashboardCompare b es).visualIndicator.status == "warning")).length ∧
    (getDashboardSummary bs es).budgetsExceeded =
      (bs.filter (fun b => decide (100 ≤ dashPercentageUsedFor b es))).length := by
  refine ⟨?_, rfl, ?_, ?_, ?_, rfl, ?_, ?_, ?_⟩
  · intro pre post b
    simp [getBudgetsComparisons]
  · show ((getBudgetsComparisons bs es).map (fun c => c.2.totalSpent)).sum = _
    rw [getBudgetsComparisons, List.map_map]
    rfl
  · show ((getBudgetsComparisons bs es).filter (fun c => c.2.status == "warning")).length = _
    rw [getBudgetsComparisons, length_filter_map]
  · show ((getBudgetsComparisons bs es).filter (fun c => c.2.isOverBudget)).length = _
    rw [getBudgetsComparisons, length_filter_map]
    rfl
  · show ((getDashboardData bs es).map (fun i => i.spending.totalSpent)).sum = _
    rw [getDashboardData, List.map_map]
    rfl
  · show ((getDashboardData bs es).filter
        (fun i => i.visualIndicator.status == "warning")).length = _
    rw [getDashboardData, length_filter_map]
  · show ((getDashboardData bs es).filter
        (fun i => i.visualIndicator.status == "danger")).length = _
    rw [getDashboardData, length_filter_map]
    refine congrArg List.length (List.filter_congr ?_)
    intro b _
    exact dashStatus_beq_danger (dashPercentageUsedFor b es)

/-- C7: averagePerDay divides total spending by the current day of month
when the queried window is the current month, and by the full number of
days of the queried month otherwise. -/
theorem averagePerDay_window_rule (es : List Expense) (prevTotal : ℚ)
    (tm ty nd nm ny : ℕ) :
    ((tm = nm ∧ ty = ny) →
      (getMonthlyExpenseSummary es prevTotal tm ty nd nm ny).averagePerDay =
        ((es.map (fun e => e.amount)).sum) / (nd : ℚ)) ∧
    (¬ (tm = nm ∧ ty = ny) →
      (getMonthlyExpenseSummary es prevTotal tm ty nd nm ny).averagePerDay =
        ((es.map (fun e => e.amount)).sum) / (daysInMonth ty tm : ℚ)) := by
  constructor
  · rintro ⟨h1, h2⟩
    simp [getMonthlyExpenseSummary, h1, h2]
  · intro h
    have hb : ¬ ((tm == nm && ty == ny) = true) := by
      simpa [Bool.and_eq_true, beq_iff_eq] using h
    simp [getMonthlyExpenseSummary, hb]

unseal Rat.add Rat.mul Rat.inv Rat.sub Rat.ofScientific in
/-- Witness for C7 with the dining expenses in a current-month window (May
2024 viewed on May 15 2024). -/
theorem averagePerDay_window_rule_witness :
    ((5 = 5 ∧ 2024 = 2024) →
      (getMonthlyExpenseSummary diningExpenses 0 5 2024 15 5 2024).averagePerDay =
        ((diningExpenses.map (fun e => e.amount)).sum) / (15 : ℚ)) ∧
    (¬ (5 = 5 ∧ 2024 = 2024) →
      (getMonthlyExpenseSummary diningExpenses 0 5 2024 15 5 2024).averagePerDay =
        ((diningExpenses.map (fun e => e.amount)).sum) / (daysInMonth 2024 5 : ℚ)) :=
  averagePerDay_window_rule diningExpenses 0 5 2024 15 5 2024

/-- C9: for a list query with page p, limit l and n matching records, the
pagination block reports currentPage p, totalExpenses n, totalPages the
ceiling of n / l (also the rounded-up natural division), hasPrev exactly
for pages after the first, and hasNext exactly when the records before the
page plus the returned page leave records beyond it. -/
theorem pagination_reporting (matching : List Expense) (page limit : ℕ)
    (hp : 1 ≤ page) (hl : 1 ≤ limit) :
    (getExpensesPagination matching page limit).currentPage = page ∧
    (getExpensesPagination matching page limit).totalExpenses = matching.length ∧
    ((getExpensesPagination matching page limit).totalPages : ℤ) =
      ⌈(matching.length : ℚ) / (limit : ℚ)⌉ ∧
    (getExpensesPagination matching page limit).totalPages =
      (matching.length + limit - 1) / limit ∧
    ((getExpensesPagination matching page limit).hasPrev = true ↔ 1 < page) ∧
    ((getExpensesPagination matching page limit).hasNext = true ↔
      (page - 1) * limit + ((matching.drop ((page - 1) * limit)).take limit).length
        < matching.length) := by
  refine ⟨rfl, rfl, ?_, ?_, ?_, ?_⟩
  · show ((⌈(matching.length : ℚ) / (limit : ℚ)⌉.toNat : ℤ)) = _
    rw [Int.toNat_of_nonneg]
    exact Int.ceil_nonneg (by positivity)
  · show (⌈(matching.length : ℚ) / (limit : ℚ)⌉.toNat) = _
    rw [ceil_cast_div_nat matching.length limit hl, Int.toNat_natCast]
  · show decide (1 < page) = true ↔ 1 < page
    simp
  · show decide ((page - 1) * limit +
        ((matching.drop ((page - 1) * limit)).take limit).length < matching.length) = true ↔ _
    simp

unseal Rat.add Rat.mul Rat.inv Rat.sub Rat.ofScientific in
/-- Witness for C9: five records, page 2, limit 2, so three pages, a
previous page and a next page. -/
theorem pagination_reporting_witness :
    ((1 : ℕ) ≤ 2 ∧ (1 : ℕ) ≤ 2) ∧
    ((getExpensesPagination fiveExpenses 2 2).currentPage = 2 ∧
     (getExpensesPagination fiveExpenses 2 2).totalExpenses = fiveExpenses.length ∧
     ((getExpensesPagination fiveExpenses 2 2).totalPages : ℤ) =
       ⌈(fiveExpenses.length : ℚ) / (2 : ℚ)⌉ ∧
     (getExpensesPagination fiveExpenses 2 2).totalPages =
       (fiveExpenses.length + 2 - 1) / 2 ∧
     ((getExpensesPagination fiveExpenses 2 2).hasPrev = true ↔ 1 < 2) ∧
     ((getExpensesPagination fiveExpenses 2 2).hasNext = true ↔
       (2 - 1) * 2 + ((fiveExpenses.drop ((2 - 1) * 2)).take 2).length
         < fiveExpenses.length)) :=
  ⟨⟨by norm_num, by norm_num⟩,
   pagination_reporting fiveExpenses 2 2 (by norm_num) (by norm_num)⟩

/-- C1: after any sequence of budget create requests from the empty store
there is at most one record per (user, category, month, year) tuple, and
one more create for a tuple that already has a record updates that single
record (its amount and notes) without changing the number of records,
keeping the uniqueness property. -/
theorem budget_tuple_unique (rs : List CreateBudgetRequest) (u : ℕ) (c : String)
    (m y : ℕ) (r : CreateBudgetRequest) :
    (((applyRequests rs).budgets.filter (sameTuple u c m y)).length ≤ 1) ∧
    ((∃ b0 ∈ (applyRequests rs).budgets,
        sameTuple r.user (toLowerCase r.category) r.month r.year b0 = true) →
      ((applyCreateOrUpdate (applyRequests rs) r).budgets.length =
          (applyRequests rs).budgets.length ∧
       (∃ b ∈ (applyCreateOrUpdate (applyRequests rs) r).budgets,
          sameTuple r.user (toLowerCase r.category) r.month r.year b = true ∧
          b.amount = r.amount ∧ b.notes = r.notes ∧ b.isActive = true) ∧
       (((applyCreateOrUpdate (applyRequests rs) r).budgets.filter
           (sameTuple u c m y)).length ≤ 1))) := by
  refine ⟨tupleUnique_applyRequests rs u c m y, ?_⟩
  rintro ⟨b0, hb0, hp0⟩
  have hsome : ((applyRequests rs).budgets.find?
      (sameTuple r.user (toLowerCase r.category) r.month r.year)).isSome :=
    List.find?_isSome.mpr ⟨b0, hb0, hp0⟩
  obtain ⟨ex, hfind⟩ := Option.isSome_iff_exists.mp hsome
  obtain ⟨hlen, hmem⟩ := applyCreateOrUpdate_found (applyRequests rs) r ex hfind
  refine ⟨hlen, ⟨{ ex with amount := r.amount, notes := r.notes, isActive := true },
    hmem, ?_, rfl, rfl, rfl⟩, ?_⟩
  · simpa [sameTuple] using List.find?_some hfind
  · exact tupleUnique_step (applyRequests rs) r
      (fun u c m y => tupleUnique_applyRequests rs u c m y) u c m y

unseal Rat.add Rat.mul Rat.inv Rat.sub Rat.ofScientific in
/-- Witness for C1: creating a dining budget for May 2024 and then
re-creating the same tuple with a new amount and notes leaves one record,
now updated. -/
theorem budget_tuple_unique_witness :
    (∃ b0 ∈ (applyRequests [rDining80]).budgets,
        sameTuple rDining120.user (toLowerCase rDining120.category) rDining120.month
          rDining120.year b0 = true) ∧
    ((applyCreateOrUpdate (applyRequests [rDining80]) rDining120).budgets.length =
        (applyRequests [rDining80]).budgets.length ∧
     (∃ b ∈ (applyCreateOrUpdate (applyRequests [rDining80]) rDining120).budgets,
        sameTuple rDining120.user (toLowerCase rDining120.category) rDining120.month
          rDining120.year b = true ∧
        b.amount = rDining120.amount ∧ b.notes = rDining120.notes ∧ b.isActive = true) ∧
     (((applyCreateOrUpdate (applyRequests [rDining80]) rDining120).budgets.filter
         (sameTuple 1 "dining" 5 2024)).length ≤ 1)) :=
  ⟨by decide, (budget_tuple_unique [rDining80] 1 "dining" 5 2024 rDining120).2 (by decide)⟩

/-- C10: when a create request's tuple already has a record, the update
writes amount, notes and an unconditional isActive of true onto it (the
request itself carries no active flag field), so a soft-disabled budget is
reactivated by re-submitting a create for its tuple. -/
theorem budget_reactivation_on_upsert (s : Store) (r : CreateBudgetRequest) (b0 : Budget)
    (hfind : s.budgets.find? (sameTuple r.user (toLowerCase r.category) r.month r.year)
      = some b0) :
    ∃ b ∈ (applyCreateOrUpdate s r).budgets,
      b.id = b0.id ∧ b.isActive = true ∧ b.amount = r.amount ∧ b.notes = r.notes ∧
      b.user = b0.user ∧ b.category = b0.category ∧ b.month = b0.month ∧ b.year = b0.year := by
  obtain ⟨hlen, hmem⟩ := applyCreateOrUpdate_found s r b0 hfind
  exact ⟨{ b0 with amount := r.amount, notes := r.notes, isActive := true },
    hmem, rfl, rfl, rfl, rfl, rfl, rfl, rfl, rfl⟩

unseal Rat.add Rat.mul Rat.inv Rat.sub Rat.ofScientific in
/-- Witness for C10: a store holding a soft-disabled dining budget; a
repeated create for the tuple reactivates it with the new amount and
notes. -/
theorem budget_reactivation_on_upsert_witness :
    (storeInactive.budgets.find?
        (sameTuple rDining120.user (toLowerCase rDining120.category) rDining120.month
          rDining120.year) =
      some { id := 7, user := 1, category := "dining", amount := 80, month := 5,
             year := 2024, isActive := false, notes := "old" }) ∧
    (∃ b ∈ (applyCreateOrUpdate storeInactive rDining120).budgets,
      b.id = 7 ∧ b.isActive = true ∧ b.amount = rDining120.amount ∧
      b.notes = rDining120.notes ∧ b.user = 1 ∧ b.category = "dining" ∧
      b.month = 5 ∧ b.year = 2024) :=
  ⟨by decide,
   budget_reactivation_on_upsert storeInactive rDining120
     { id := 7, user := 1, category := "dining", amount := 80, month := 5,
       year := 2024, isActive := false, notes := "old" } (by decide)⟩

end ExpenseTracker
